import Mathlib

/-!
# Verification of the Woo-Analytics order/metrics pipeline

Shallow embedding of the order normalization, stock-cache, pagination and
metrics/CAC aggregation code of the repository:

* `src/raspberry_pi_package/utils/woocommerce_client.py` (class
  `WooCommerceClient`: `get_stock_quantities_batch`,
  `_fetch_variable_product_stock`, `_fetch_variation_product_stock`,
  `get_orders`, `process_orders_to_df`, `get_order_status_display`);
* `src/utils/woocommerce_client.py` (`get_orders`, `_process_single_order`,
  `get_stock_quantity`);
* `src/utils/data_processor.py` (`DataProcessor.calculate_metrics`,
  `DataProcessor.calculate_cac_metrics`).

Monetary amounts (Python floats) are modelled as rationals `ℚ`; time is
modelled in whole seconds as `ℕ`; Python dicts keyed by product id are
modelled as functions `ℕ → Option _` or association lists.  Network calls
are modelled by environment records whose fields return `Except String _`
(`.error` is a raised exception / malformed payload).  Presentation-only
outputs of the Python functions (charts, progress bars, daily-trend
DataFrames, `average_revenue`) are not part of the embedded fragment; every
field any claim mentions is embedded.
-/

namespace WooAnalytics

/-! ## Raw API data model -/

/-- One entry of an order's / line item's `meta_data` list. -/
structure MetaEntry where
  key : String
  /-- `meta.get('value', '')`; for the `_yith_cog_item_cost` entry the code
  runs `float(value)` inside `try`: we carry the parse result, `none`
  meaning "missing or not parseable as a float" (which the code turns
  into cost `0`). -/
  value : String
  valueAsFloat : Option ℚ := none
  deriving Repr, DecidableEq

/-- A raw WooCommerce shipping line. -/
structure RawShippingLine where
  total : ℚ
  total_tax : ℚ
  method_title : String
  deriving Repr, DecidableEq

/-- A raw WooCommerce line item. -/
structure RawLineItem where
  product_id : Option ℕ
  sku : String
  name : String
  quantity : ℤ
  total : ℚ
  total_tax : ℚ
  subtotal : ℚ
  meta_data : List MetaEntry
  deriving Repr, DecidableEq

/-- Billing block of a raw order (`order['billing']`).  `email` models
`billing.get('email', '')`: the default has already been applied, so a
missing key is the empty string. -/
structure Billing where
  email : String
  deriving Repr, DecidableEq

/-- A raw order as returned by `GET /orders`.  `date_created` is the result
of parsing the ISO timestamp: `none` when the field is missing/empty (the
code's `if not date_str`) or unparseable (the code's `except` around
`pd.to_datetime`); `some t` is the parsed instant (seconds). -/
structure RawOrder where
  id : ℕ
  date_created : Option ℕ
  status : String
  total : ℚ
  total_tax : ℚ
  shipping_lines : List RawShippingLine
  line_items : List RawLineItem
  /-- `none` models an order where `'billing' in order and
  isinstance(order['billing'], dict)` is false. -/
  billing : Option Billing
  meta_data : List MetaEntry
  deriving Repr, DecidableEq

/-! ## Normalized data model (rows of the DataFrames built by
`process_orders_to_df`) -/

/-- An order row of `df_orders` (raspberry-pi
`WooCommerceClient.process_orders_to_df`, the `order_info` dict). -/
structure OrderRow where
  date : ℕ
  order_id : ℕ
  status : String
  total : ℚ
  subtotal : ℚ
  shipping_base : ℚ
  shipping_total : ℚ
  shipping_tax : ℚ
  tax_total : ℚ
  billing : Option Billing
  deriving Repr, DecidableEq

/-- A product row of `df_products` (the `products` dicts). -/
structure ProductRow where
  date : ℕ
  product_id : Option ℕ
  sku : String
  name : String
  quantity : ℤ
  total : ℚ
  subtotal : ℚ
  tax : ℚ
  cost : ℚ
  stock_quantity : ℤ
  deriving Repr, DecidableEq

/-! ## `get_order_status_display`
(`src/raspberry_pi_package/utils/woocommerce_client.py`, lines 592-603) -/

/-- `WooCommerceClient.get_order_status_display`: convert an order status to
its Norwegian display text; unknown statuses are returned unchanged. -/
def get_order_status_display (status : String) : String :=
  if status = "completed" then "Fullført"
  else if status = "processing" then "Under behandling"
  else if status = "on-hold" then "På vent"
  else if status = "pending" then "Venter"
  else if status = "cancelled" then "Kansellert"
  else if status = "refunded" then "Refundert"
  else if status = "failed" then "Mislykket"
  else status

/-! ## `process_orders_to_df` (raspberry-pi client, lines 434-590) -/

/-- `_yith_cog_item_cost` extraction from a line item's meta data
(`process_order`, lines 518-525): the first entry with that key wins;
`float(...)` failure (or missing entry) yields `0`. -/
def item_cost (meta : List MetaEntry) : ℚ :=
  match meta.find? (fun m => m.key = "_yith_cog_item_cost") with
  | some m => m.valueAsFloat.getD 0
  | none => 0

/-- One line item processed into a `ProductRow` (`process_order`,
lines 513-542).  `stock_quantities.get(product_id, 0)` is the `stock`
lookup with default 0. -/
def process_line_item (stock_quantities : ℕ → Option ℤ) (order_date : ℕ)
    (item : RawLineItem) : ProductRow :=
  { date := order_date
    product_id := item.product_id
    sku := item.sku
    name := item.name
    quantity := item.quantity
    total := item.total + item.total_tax
    subtotal := item.subtotal
    tax := item.total_tax
    cost := item_cost item.meta_data * item.quantity
    stock_quantity :=
      match item.product_id with
      | some pid => (stock_quantities pid).getD 0
      | none => 0 }

/-- The inner `process_order` helper of the raspberry-pi
`process_orders_to_df` (lines 458-548): an order without a parseable
`date_created` yields `none` (skipped); otherwise the order row and its
product rows.  (The surrounding `except` also returns `(None, [])`; in this
embedding the body is total, so `none` exactly covers the skip cases.) -/
def process_order (stock_quantities : ℕ → Option ℤ) (o : RawOrder) :
    Option (OrderRow × List ProductRow) :=
  match o.date_created with
  | none => none
  | some order_date =>
    let shipping_base := (o.shipping_lines.map (fun s => s.total)).sum
    let shipping_tax := (o.shipping_lines.map (fun s => s.total_tax)).sum
    some
      ({ date := order_date
         order_id := o.id
         status := get_order_status_display o.status
         total := o.total
         subtotal := (o.line_items.map (fun i => i.subtotal)).sum
         shipping_base := shipping_base
         shipping_total := shipping_base + shipping_tax
         shipping_tax := shipping_tax
         tax_total := o.total_tax
         billing := o.billing },
       o.line_items.map (process_line_item stock_quantities order_date))

/-- `process_orders_to_df` (raspberry-pi client): the pair
`(df_orders, df_products)`.  Orders whose `process_order` returned `None`
contribute nothing; product rows of all processed orders are concatenated.
Concurrent completion order only permutes rows and every consumer below is
row-order-independent, so rows are kept in submission order. -/
def process_orders_to_df (stock_quantities : ℕ → Option ℤ)
    (orders : List RawOrder) : List OrderRow × List ProductRow :=
  (orders.filterMap (fun o => (process_order stock_quantities o).map Prod.fst),
   (orders.filterMap (process_order stock_quantities)).flatMap Prod.snd)

/-! ## `DataProcessor.calculate_metrics`
(`src/utils/data_processor.py`, lines 9-86) -/

/-- The metrics dict returned by `DataProcessor.calculate_metrics`.
(`average_revenue` is a per-period presentation mean not referenced by any
claim and not embedded.) -/
structure Metrics where
  total_revenue_incl_vat : ℚ
  total_revenue_excl_vat : ℚ
  shipping_total : ℚ
  shipping_costs : ℚ
  total_tax : ℚ
  total_profit : ℚ
  profit_margin : ℚ
  total_cogs : ℚ
  order_count : ℕ
  deriving Repr, DecidableEq

/-- `DataProcessor.calculate_metrics` over the typed order / product rows.
An empty order DataFrame short-circuits to the zero dict (lines 12-23);
typed rows always carry a `date`, so the missing-column branch is
unreachable here. -/
def calculate_metrics (df : List OrderRow) (df_products : List ProductRow) :
    Metrics :=
  if df = [] then
    { total_revenue_incl_vat := 0, total_revenue_excl_vat := 0
      shipping_total := 0, shipping_costs := 0, total_tax := 0
      total_profit := 0, profit_margin := 0, total_cogs := 0
      order_count := 0 }
  else
    let total_cost := (df_products.map (fun p => p.cost)).sum
    let shipping_base := (df.map (fun o => o.shipping_base)).sum
    let shipping_tax := (df.map (fun o => o.shipping_tax)).sum
    let total_tax := (df.map (fun o => o.tax_total)).sum
    let order_count := (df.filter (fun o => o.status ≠ "pending")).length
    let total_revenue_incl_vat := (df.map (fun o => o.total)).sum
    let total_revenue_excl_vat := (df.map (fun o => o.subtotal)).sum
    let total_profit := total_revenue_excl_vat - total_cost
    { total_revenue_incl_vat := total_revenue_incl_vat
      total_revenue_excl_vat := total_revenue_excl_vat
      shipping_total := shipping_base + shipping_tax
      shipping_costs := shipping_base
      total_tax := total_tax
      total_profit := total_profit
      profit_margin :=
        if 0 < total_revenue_excl_vat then
          total_profit / total_revenue_excl_vat * 100
        else 0
      total_cogs := total_cost
      order_count := order_count }

/-! ## Stock resolution and the batched stock cache
(`src/raspberry_pi_package/utils/woocommerce_client.py`, lines 36-248) -/

/-- A variation record as returned by `GET products/{id}/variations`. -/
structure Variation where
  stock_quantity : Option ℤ
  deriving Repr, DecidableEq

/-- A product record as returned by `GET products?include=...`.  WooCommerce
encodes "no parent" as `parent_id = 0`, which is exactly what the code's
truthiness test `product.get('parent_id')` checks. -/
structure Product where
  id : ℕ
  stock_quantity : Option ℤ
  ptype : String
  parent_id : ℕ
  deriving Repr, DecidableEq

/-- A parent-product record as returned by `GET products/{parent_id}`
during the variation fallback. -/
structure ParentRecord where
  stock_quantity : Option ℤ
  deriving Repr, DecidableEq

/-- The store's API as seen by the stock-resolution code.  `Except.error`
models a raised exception or a malformed (non-list / non-dict) payload. -/
structure StoreApi where
  /-- `GET products?include=...`: the record for a product id, `none` when
  the id is absent from the response. -/
  products : ℕ → Option Product
  /-- `GET products/{id}/variations` for a variable product. -/
  variations : ℕ → Except String (List Variation)
  /-- `GET products/{parent_id}/variations/{id}` for a variation; `ok none`
  models a response that is not a dict. -/
  variationOf : ℕ → ℕ → Except String (Option Variation)
  /-- `GET products/{parent_id}` for the parent fallback. -/
  parentOf : ℕ → Except String ParentRecord

/-- `WooCommerceClient._fetch_variable_product_stock` (lines 190-214): sum
the variations' stock quantities, `v.get('stock_quantity', 0) or 0` turning
a null into 0; an empty (or non-list) response or an exception yields 0. -/
def fetch_variable_product_stock (api : StoreApi) (p : Product) : ℤ :=
  match api.variations p.id with
  | .error _ => 0
  | .ok variations =>
    if variations ≠ [] then
      (variations.map (fun v => v.stock_quantity.getD 0)).sum
    else 0

/-- `WooCommerceClient._fetch_variation_product_stock` (lines 216-248): use
the fetched variation's own stock when it is non-null, otherwise fall back
to the parent product's stock (null → 0); any exception yields 0. -/
def fetch_variation_product_stock (api : StoreApi) (p : Product) : ℤ :=
  match api.variationOf p.parent_id p.id with
  | .error _ => 0
  | .ok variation? =>
    match variation? with
    | some v =>
      match v.stock_quantity with
      | some s => s
      | none =>
        match api.parentOf p.parent_id with
        | .error _ => 0
        | .ok parent => parent.stock_quantity.getD 0
    | none =>
      match api.parentOf p.parent_id with
      | .error _ => 0
      | .ok parent => parent.stock_quantity.getD 0

/-- Per-product routing of `fetch_product_batch` (lines 98-155): direct
stock wins; else variable products sum their variations; else products with
a (truthy) `parent_id` use the variation/parent rule; else standard
products fall back to `product.get('stock_quantity', 0) or 0`, which is 0
on this path. -/
def resolve_product (api : StoreApi) (p : Product) : ℤ :=
  match p.stock_quantity with
  | some s => s
  | none =>
    if p.ptype = "variable" then fetch_variable_product_stock api p
    else if p.parent_id ≠ 0 then fetch_variation_product_stock api p
    else 0

/-- The inner `fetch_product_batch` helper of `get_stock_quantities_batch`
(lines 78-160): request the records of `batch_ids` in one call and resolve
each returned product.  Ids absent from the response get no entry (the
code's `if pid is None: continue` guard never fires for well-formed
records).  Concurrent completion only permutes the dict-insertion order,
which a dict ignores; entries are kept in response order. -/
def fetch_product_batch (api : StoreApi) (batch_ids : List ℕ) :
    List (ℕ × ℤ) :=
  (batch_ids.filterMap api.products).map (fun p => (p.id, resolve_product api p))

/-- The bounded slicing loop `for i in range(0, len(product_ids),
batch_size)` with `batch_size = 100` (lines 162-165); the loop makes at
most `len(product_ids)` iterations, which bounds the structural fuel. -/
def chunks_of_100 (product_ids : List ℕ) : List (List ℕ) :=
  go product_ids.length product_ids
where
  go : ℕ → List ℕ → List (List ℕ)
  | _, [] => []
  | 0, _ :: _ => []
  | fuel + 1, l@(_ :: _) => l.take 100 :: go fuel (l.drop 100)

/-- The client's stock-cache state: `self.stock_cache` (a dict) and
`self.cache_timestamp`; `self.cache_duration` is 5 minutes = 300 s. -/
structure CacheState where
  stock_cache : ℕ → Option ℤ
  cache_timestamp : Option ℕ

/-- The observable outcome of one `get_stock_quantities_batch` call: the
returned dict (as an association list), the updated cache state, and the
list of id-chunks actually requested from the API (`[]` when the call was
served from the cache alone). -/
structure BatchOutcome where
  result : List (ℕ × ℤ)
  state : CacheState
  api_chunks : List (List ℕ)

/-- `WooCommerceClient.get_stock_quantities_batch` (lines 45-188).
`force_refresh` clears the cache first; a fresh cache timestamp
(`now - ts < 300`) answers every requested id from the cache with default
0; otherwise all requested ids are fetched in chunks of 100, the cache is
updated with every resolved id and the timestamp set to `now`. -/
def get_stock_quantities_batch (api : StoreApi) (st : CacheState) (now : ℕ)
    (product_ids : List ℕ) (force_refresh : Bool) : BatchOutcome :=
  let st1 : CacheState :=
    if force_refresh then { stock_cache := fun _ => none, cache_timestamp := none }
    else st
  let fresh : Bool :=
    !force_refresh &&
      (match st1.cache_timestamp with
       | some ts => decide (now - ts < 300)
       | none => false)
  if fresh then
    { result := product_ids.map (fun pid => (pid, (st1.stock_cache pid).getD 0))
      state := st1
      api_chunks := [] }
  else
    let chunks := chunks_of_100 product_ids
    let all_stock := (chunks.map (fetch_product_batch api)).flatten
    { result := all_stock
      state :=
        { stock_cache := fun pid =>
            match (all_stock.reverse.find? (fun e => e.1 = pid)) with
            | some e => some e.2
            | none => st1.stock_cache pid
          cache_timestamp := some now }
      api_chunks := chunks }

/-! ## The second stock cache: `get_stock_quantity`
(`src/utils/woocommerce_client.py`, lines 328-353).  There
`self.cache_timeout = 3600` (line 41). -/

/-- A product record as read by `get_stock_quantity`: the
`'stock_quantity' in product_data` membership test distinguishes the key
being absent (outer `none`) from it holding null (`some none`). -/
structure UtilsProduct where
  stock_field : Option (Option ℤ)
  deriving Repr, DecidableEq

/-- One entry of `st.session_state.stock_cache`: `(timestamp, value)`. -/
structure UtilsCacheEntry where
  ts : ℕ
  value : Option ℤ
  deriving Repr, DecidableEq

/-- The observable outcome of one `get_stock_quantity` call. -/
structure UtilsStockOutcome where
  result : Option ℤ
  cache : ℕ → Option UtilsCacheEntry
  fetched : Bool

/-- `WooCommerceClient.get_stock_quantity` of `src/utils`: serve the cached
value while `now - timestamp < 3600`, else fetch; a fetched record caches
and returns its `stock_quantity` when the key is present, otherwise `None`;
an exception returns `None`. -/
def get_stock_quantity (api : ℕ → Except String UtilsProduct)
    (cache : ℕ → Option UtilsCacheEntry) (now : ℕ) (product_id : ℕ) :
    UtilsStockOutcome :=
  let fetch : UtilsStockOutcome :=
    match api product_id with
    | .error _ => { result := none, cache := cache, fetched := true }
    | .ok prod =>
      match prod.stock_field with
      | some v =>
        { result := v
          cache := fun p =>
            if p = product_id then some { ts := now, value := v } else cache p
          fetched := true }
      | none => { result := none, cache := cache, fetched := true }
  match cache product_id with
  | some entry =>
    if now - entry.ts < 3600 then
      { result := entry.value, cache := cache, fetched := false }
    else fetch
  | none => fetch

/-! ## Paginated order fetching

`get_orders` exists in two versions.  The raspberry-pi one
(`src/raspberry_pi_package/utils/woocommerce_client.py`, lines 330-432)
reads `X-WP-TotalPages` from the first response's headers; the `src/utils`
one (lines 88-158) instead derives the page count from the length of the
first batch.  Both are modelled over the true page contents
`pages` (page `n` of the API is `pages[n-1]`; the header `X-WP-TotalPages`
is `pages.length`) and a `reorder` function standing for the completion
order of `concurrent.futures.as_completed`: theorems quantify over every
`reorder` that permutes its input. -/

/-- Raspberry-pi `WooCommerceClient.get_orders`: fetch page 1, read the
page count from the headers, return page 1 alone when it is the only page,
otherwise append the remaining pages in completion order.  An invalid
first response yields `[]`. -/
def get_orders_rpi {α : Type} (pages : List (List α))
    (reorder : List (List α) → List (List α)) : List α :=
  match pages with
  | [] => []
  | first :: rest =>
    if rest.isEmpty then first
    else first ++ (reorder rest).flatten

/-- `src/utils` `WooCommerceClient.get_orders`: fetch a first batch, derive
`total_pages = len(first_batch) // 100 + 1`, then fetch pages `1..total_pages`
concurrently into an initially empty list. -/
def get_orders_utils {α : Type} (pages : List (List α))
    (reorder : List (List α) → List (List α)) : List α :=
  let first_batch := pages.getD 0 []
  if first_batch.isEmpty then []
  else
    let total_pages := first_batch.length / 100 + 1
    let batches := (List.range total_pages).map (fun i => pages.getD i [])
    (reorder batches).flatten

/-! ## `DataProcessor.calculate_cac_metrics`
(`src/utils/data_processor.py`, lines 280-494) -/

/-- One row of the `customers_df` DataFrame built from orders that carry a
billing dict (lines 312-323). -/
structure CustomerRow where
  email : String
  order_date : ℕ
  order_total : ℚ
  order_id : ℕ
  deriving Repr, DecidableEq

/-- The dict returned by `GoogleAnalyticsClient.calculate_total_ad_spend`
(`src/utils/google_analytics_client.py`, lines 296-343): total spend, a
`has_data` flag, and the `error_message` it attaches when no data was
found.  (`spend_by_date` feeds only the daily-trend chart data.) -/
structure AdSpendData where
  total_spend : ℚ
  has_data : Bool
  error_message : Option String
  deriving Repr, DecidableEq

/-- The `campaign_data` DataFrame returned by
`GoogleAnalyticsClient.calculate_campaign_performance`, which carries the
provider's error message in its `attrs` when the provider had no data
(lines 362-368 of the GA client); `⟨none⟩` is the initial empty frame. -/
structure CampaignData where
  error_message : Option String
  deriving Repr, DecidableEq

/-- The metrics dict returned by `DataProcessor.calculate_cac_metrics`.
(`cac_trend_data`/`roi_trend_data` are presentation-only daily-trend frames
derived from the same `customers_df` and spend data; no claim references
them and they are not embedded.) -/
structure CacMetrics where
  cac : ℚ
  cac_to_ltv_ratio : ℚ
  roi : ℚ
  breakeven_point : ℚ
  new_customers_count : ℕ
  repeat_customers_count : ℕ
  total_ad_spend : ℚ
  total_revenue : ℚ
  revenue_per_customer : ℚ
  campaign_data : CampaignData
  using_ga_data : Bool
  deriving Repr, DecidableEq

/-- The zeroed dict returned on an empty DataFrame or when no order has
billing information (lines 294-309 and 325-340). -/
def zero_cac_metrics : CacMetrics :=
  { cac := 0, cac_to_ltv_ratio := 0, roi := 0, breakeven_point := 0
    new_customers_count := 0, repeat_customers_count := 0
    total_ad_spend := 0, total_revenue := 0, revenue_per_customer := 0
    campaign_data := { error_message := none }, using_ga_data := false }

/-- The orders that contribute rows to `customers_df`: exactly those whose
`billing` is a dict (lines 314-323). -/
def customer_rows (df : List OrderRow) : List CustomerRow :=
  df.filterMap (fun o =>
    o.billing.map (fun b =>
      { email := b.email, order_date := o.date, order_total := o.total
        order_id := o.order_id }))

/-- `DataProcessor.calculate_cac_metrics`.  The Google-Analytics query of
lines 372-404 is abstracted by `ga : Except String (AdSpendData ×
CampaignData)`: `.error` models any exception raised while importing,
constructing or querying the client (the `except` branch, which logs and
falls back), `.ok` the two successfully returned values.  The
`min_date and max_date` guard always holds once `customers_df` is nonempty
(a `date` object is truthy). -/
def calculate_cac_metrics (df : List OrderRow) (ad_cost_per_order : ℚ)
    (use_ga_data : Bool) (ga : Except String (AdSpendData × CampaignData)) :
    CacMetrics :=
  if df = [] then zero_cac_metrics
  else
    let customers := customer_rows df
    if customers = [] then zero_cac_metrics
    else
      let emails := customers.map (fun c => c.email)
      let uniq := emails.dedup
      let new_customers_count := (uniq.filter (fun e => emails.count e = 1)).length
      let repeat_customers_count := (uniq.filter (fun e => 1 < emails.count e)).length
      let total_customers := new_customers_count + repeat_customers_count
      let total_revenue := (customers.map (fun c => c.order_total)).sum
      let spend_using_campaign : ℚ × Bool × CampaignData :=
        if use_ga_data then
          match ga with
          | .error _ =>
            ((customers.length : ℚ) * ad_cost_per_order, false,
             { error_message := none })
          | .ok (ad_spend_data, campaign) =>
            if ad_spend_data.has_data then
              (ad_spend_data.total_spend, true, campaign)
            else
              ((customers.length : ℚ) * ad_cost_per_order, false, campaign)
        else ((customers.length : ℚ) * ad_cost_per_order, false,
              { error_message := none })
      let total_ad_spend := spend_using_campaign.1
      let cac :=
        if 0 < new_customers_count then
          total_ad_spend / (new_customers_count : ℚ)
        else 0
      let revenue_per_customer :=
        if 0 < total_customers then total_revenue / (total_customers : ℚ)
        else 0
      let customer_lifetime_value :=
        if 0 < total_customers then
          ((uniq.map (fun e =>
              ((customers.filter (fun c => c.email = e)).map
                (fun c => c.order_total)).sum)).sum) / (uniq.length : ℚ)
        else 0
      let cac_to_ltv_ratio := if 0 < cac then customer_lifetime_value / cac else 0
      let roi :=
        if 0 < total_ad_spend then
          (total_revenue - total_ad_spend) / total_ad_spend * 100
        else 0
      let avg_order_value := total_revenue / (customers.length : ℚ)
      let breakeven_point := if 0 < avg_order_value then cac / avg_order_value else 0
      { cac := cac
        cac_to_ltv_ratio := cac_to_ltv_ratio
        roi := roi
        breakeven_point := breakeven_point
        new_customers_count := new_customers_count
        repeat_customers_count := repeat_customers_count
        total_ad_spend := total_ad_spend
        total_revenue := total_revenue
        revenue_per_customer := revenue_per_customer
        campaign_data := spend_using_campaign.2.2
        using_ga_data := spend_using_campaign.2.1 }

/-! ## Shared helper lemmas -/

/-- Flattening respects permutation of the outer list. -/
theorem flatten_perm_of_perm {α : Type} {l₁ l₂ : List (List α)}
    (h : l₁.Perm l₂) : l₁.flatten.Perm l₂.flatten := by
  induction h with
  | nil => exact List.Perm.refl _
  | cons x _ ih => simpa using ih.append_left x
  | swap x y l =>
    simp only [List.flatten_cons]
    rw [← List.append_assoc, ← List.append_assoc]
    exact (List.perm_append_comm).append_right _
  | trans _ _ ih₁ ih₂ => exact ih₁.trans ih₂

/-- The 100-chunking loses and duplicates nothing. -/
theorem chunks_of_100_flatten : ∀ l : List ℕ, (chunks_of_100 l).flatten = l := by
  have key : ∀ (fuel : ℕ) (l : List ℕ), l.length ≤ fuel →
      (chunks_of_100.go fuel l).flatten = l := by
    intro fuel
    induction fuel with
    | zero =>
      intro l hl
      have : l = [] := List.eq_nil_of_length_eq_zero (Nat.le_zero.1 hl)
      subst this
      rfl
    | succ n ih =>
      intro l hl
      match l with
      | [] => rfl
      | a :: t =>
        rw [chunks_of_100.go, List.flatten_cons,
          ih _ (by simp at hl ⊢; omega), List.take_append_drop]
  exact fun l => key l.length l le_rfl

/-- Every 100-chunk has at most 100 elements. -/
theorem chunks_of_100_le : ∀ (l : List ℕ) (c : List ℕ),
    c ∈ chunks_of_100 l → c.length ≤ 100 := by
  have key : ∀ (fuel : ℕ) (l : List ℕ), l.length ≤ fuel →
      ∀ c ∈ chunks_of_100.go fuel l, c.length ≤ 100 := by
    intro fuel
    induction fuel with
    | zero =>
      intro l hl
      have : l = [] := List.eq_nil_of_length_eq_zero (Nat.le_zero.1 hl)
      subst this
      intro c hc
      simp [chunks_of_100.go] at hc
    | succ n ih =>
      intro l hl c hc
      match l with
      | [] => simp [chunks_of_100.go] at hc
      | a :: t =>
        rw [chunks_of_100.go] at hc
        rcases List.mem_cons.1 hc with h | h
        · subst h
          simp
        · exact ih _ (by simp at hl ⊢; omega) _ h
  exact fun l => key l.length l le_rfl

/-! ## Claims -/

/-- C1: for every set of normalized orders, `calculate_metrics` computes
revenue excluding VAT as exactly the sum of the orders' `subtotal` fields;
the normalizer sets each order's `subtotal` to the sum of its line items'
subtotals (no shipping, no tax); and the value is not the
`total − tax − shipping` formula (the two disagree on some input). -/
theorem revenue_excl_vat_is_sum_of_subtotals :
    (∀ (df : List OrderRow) (df_products : List ProductRow),
      (calculate_metrics df df_products).total_revenue_excl_vat
        = (df.map (fun o => o.subtotal)).sum)
    ∧ (∀ (stock : ℕ → Option ℤ) (o : RawOrder) (d : ℕ),
        o.date_created = some d →
        (process_order stock o).map (fun x => x.1.subtotal)
          = some ((o.line_items.map (fun i => i.subtotal)).sum))
    ∧ ∃ (df : List OrderRow) (df_products : List ProductRow),
        (calculate_metrics df df_products).total_revenue_excl_vat
          ≠ (df.map (fun o => o.total - o.tax_total - o.shipping_total)).sum := by
  refine ⟨?_, ?_, ?_⟩
  · intro df df_products
    by_cases h : df = []
    · subst h; simp [calculate_metrics]
    · simp [calculate_metrics, h]
  · intro stock o d h
    simp [process_order, h]
  · refine ⟨[{ date := 0, order_id := 1, status := "completed", total := 125
               subtotal := 80, shipping_base := 20, shipping_total := 25
               shipping_tax := 5, tax_total := 25, billing := none }], [], ?_⟩
    simp [calculate_metrics]
    norm_num

/-- C1 witness: the theorem applied to a concrete order with two line
items whose subtotals are 30 and 40. -/
theorem revenue_excl_vat_is_sum_of_subtotals_witness :
    (process_order (fun _ => none)
        { id := 7, date_created := some 1700000000, status := "completed"
          total := 100, total_tax := 20
          shipping_lines := [{ total := 10, total_tax := 2, method_title := "Post" }]
          line_items :=
            [{ product_id := some 11, sku := "A", name := "a", quantity := 1
               total := 35, total_tax := 5, subtotal := 30, meta_data := [] },
             { product_id := some 12, sku := "B", name := "b", quantity := 2
               total := 48, total_tax := 8, subtotal := 40, meta_data := [] }]
          billing := none, meta_data := [] }).map (fun x => x.1.subtotal)
      = some 70 := by
  have h := revenue_excl_vat_is_sum_of_subtotals.2.1 (fun _ => none)
    { id := 7, date_created := some 1700000000, status := "completed"
      total := 100, total_tax := 20
      shipping_lines := [{ total := 10, total_tax := 2, method_title := "Post" }]
      line_items :=
        [{ product_id := some 11, sku := "A", name := "a", quantity := 1
           total := 35, total_tax := 5, subtotal := 30, meta_data := [] },
         { product_id := some 12, sku := "B", name := "b", quantity := 2
           total := 48, total_tax := 8, subtotal := 40, meta_data := [] }]
      billing := none, meta_data := [] } 1700000000 rfl
  rw [h]
  norm_num

/-- C2 (code bug): a raw order with status `"pending"` fed through the
raspberry-pi normalization pipeline is stored with the display status
`"Venter"`, so `calculate_metrics`' filter `status != 'pending'` does not
exclude it: the composed pipeline reports `order_count = 1` for a batch
consisting of a single pending order, while `calculate_metrics` applied to
a row that still carries the raw status `"pending"` reports 0. -/
theorem pending_order_counted_after_normalization :
    get_order_status_display "pending" = "Venter"
    ∧ (calculate_metrics
        (process_orders_to_df (fun _ => none)
          [{ id := 1, date_created := some 0, status := "pending", total := 10
             total_tax := 2, shipping_lines := [], line_items := []
             billing := none, meta_data := [] }]).1
        (process_orders_to_df (fun _ => none)
          [{ id := 1, date_created := some 0, status := "pending", total := 10
             total_tax := 2, shipping_lines := [], line_items := []
             billing := none, meta_data := [] }]).2).order_count = 1
    ∧ (calculate_metrics
        [{ date := 0, order_id := 1, status := "pending", total := 10
           subtotal := 0, shipping_base := 0, shipping_total := 0
           shipping_tax := 0, tax_total := 2, billing := none }] []).order_count
        = 0 := by
  refine ⟨rfl, ?_, ?_⟩ <;> decide

/-- C9: an order whose `date_created` is missing (or unparseable) is
skipped by `process_orders_to_df` — it contributes no order row and no
product rows, and the surrounding batch is processed exactly as if the
order were absent. -/
theorem dateless_order_skipped :
    ∀ (stock : ℕ → Option ℤ) (pre post : List RawOrder) (o : RawOrder),
      o.date_created = none →
      process_orders_to_df stock (pre ++ o :: post)
        = process_orders_to_df stock (pre ++ post) := by
  intro stock pre post o h
  have hnone : process_order stock o = none := by
    simp [process_order, h]
  unfold process_orders_to_df
  simp [List.filterMap_append, List.filterMap_cons, hnone]

/-- C9 witness: a concrete three-order batch whose middle order has no
date produces the same DataFrames as the batch without it. -/
theorem dateless_order_skipped_witness :
    process_orders_to_df (fun _ => none)
      ([{ id := 1, date_created := some 5, status := "completed", total := 10
          total_tax := 2, shipping_lines := [], line_items := []
          billing := none, meta_data := [] }]
        ++ { id := 2, date_created := none, status := "processing"
             total := 99, total_tax := 9, shipping_lines := [], line_items := []
             billing := none, meta_data := [] } ::
           [{ id := 3, date_created := some 8, status := "refunded", total := 20
              total_tax := 4, shipping_lines := [], line_items := []
              billing := none, meta_data := [] }])
      = process_orders_to_df (fun _ => none)
          ([{ id := 1, date_created := some 5, status := "completed", total := 10
              total_tax := 2, shipping_lines := [], line_items := []
              billing := none, meta_data := [] }]
            ++ [{ id := 3, date_created := some 8, status := "refunded"
                  total := 20, total_tax := 4, shipping_lines := []
                  line_items := [], billing := none, meta_data := [] }]) :=
  dateless_order_skipped (fun _ => none) _ _ _ rfl

/-- Helper: the raspberry-pi `get_orders` returns a permutation of the
concatenation of all pages whenever the completion order only permutes the
outstanding page results. -/
theorem get_orders_rpi_perm {α : Type} (pages : List (List α))
    (reorder : List (List α) → List (List α))
    (hre : ∀ l, (reorder l).Perm l) :
    (get_orders_rpi pages reorder).Perm pages.flatten := by
  match pages with
  | [] => simp [get_orders_rpi]
  | first :: rest =>
    by_cases hr : rest.isEmpty
    · have : rest = [] := List.isEmpty_iff.1 hr
      subst this
      simp [get_orders_rpi]
    · simp only [get_orders_rpi, hr, Bool.false_eq_true, if_false,
        List.flatten_cons]
      exact (flatten_perm_of_perm (hre rest)).append_left first

set_option maxRecDepth 10000 in
/-- C5 counterexample: for five pages of 100, 100, 100, 100 and 37 orders,
the `src/utils` `get_orders` — which derives the page count as
`len(first_batch) // 100 + 1` instead of reading it from the response
headers — returns only 200 orders, not 437. -/
theorem get_orders_utils_drops_pages :
    (get_orders_utils
        [List.replicate 100 (0 : ℕ), List.replicate 100 1, List.replicate 100 2,
         List.replicate 100 3, List.replicate 37 4] id).length ≠ 437
    ∧ (get_orders_utils
        [List.replicate 100 (0 : ℕ), List.replicate 100 1, List.replicate 100 2,
         List.replicate 100 3, List.replicate 37 4] id).length = 200 := by
  constructor <;> decide

/-- C5 (amended): the header-based raspberry-pi `get_orders` returns every
page's orders exactly once — a permutation of the concatenated pages —
regardless of the completion order of the concurrent page requests, hence
exactly 437 orders for pages of 100, 100, 100, 100 and 37; the `src/utils`
`get_orders` instead computes the page count as `len(first_batch)//100 + 1`
and returns only the first 200 orders of that scenario. -/
theorem pagination_yields_all_pages :
    (∀ {α : Type} (pages : List (List α))
        (reorder : List (List α) → List (List α)),
      (∀ l, (reorder l).Perm l) →
      (get_orders_rpi pages reorder).Perm pages.flatten)
    ∧ (∀ (pages : List (List ℕ)) (reorder : List (List ℕ) → List (List ℕ)),
      (∀ l, (reorder l).Perm l) →
      pages.map List.length = [100, 100, 100, 100, 37] →
      (get_orders_rpi pages reorder).length = 437
        ∧ (get_orders_utils pages reorder).length = 200) := by
  constructor
  · intro α pages reorder hre
    exact get_orders_rpi_perm pages reorder hre
  · intro pages reorder hre hsz
    obtain ⟨a, b, c, d, e, rfl⟩ : ∃ a b c d e, pages = [a, b, c, d, e] := by
      rcases pages with _ | ⟨a, _ | ⟨b, _ | ⟨c, _ | ⟨d, _ | ⟨e, _ | ⟨f, r⟩⟩⟩⟩⟩⟩ <;>
        simp at hsz
      exact ⟨a, b, c, d, e, rfl⟩
    simp only [List.map_cons, List.map_nil, List.cons.injEq, and_true] at hsz
    obtain ⟨ha, hb, hc, hd, he⟩ := hsz
    constructor
    · have hperm := get_orders_rpi_perm [a, b, c, d, e] reorder hre
      rw [hperm.length_eq]
      simp only [List.flatten_cons, List.flatten_nil, List.length_append,
        List.length_nil, ha, hb, hc, hd, he]
    · have hne : a.isEmpty = false := by
        rcases a with _ | _
        · simp at ha
        · rfl
      simp only [get_orders_utils, hne, Bool.false_eq_true, if_false]
      rw [show ([a, b, c, d, e] : List (List ℕ)).getD 0 [] = a from rfl, ha,
        show (100 : ℕ) / 100 + 1 = 2 from by norm_num,
        show List.range 2 = [0, 1] from by decide]
      simp only [List.map_cons, List.map_nil]
      rw [show ([a, b, c, d, e] : List (List ℕ)).getD 0 [] = a from rfl,
        show ([a, b, c, d, e] : List (List ℕ)).getD 1 [] = b from rfl]
      simp only [hne, Bool.false_eq_true, if_false]
      rw [(flatten_perm_of_perm (hre [a, b])).length_eq]
      simp only [List.flatten_cons, List.flatten_nil, List.length_append,
        List.length_nil, ha, hb]

/-- C5 witness: the amended theorem applied to concrete pages of sizes
100, 100, 100, 100, 37 with the identity completion order. -/
theorem pagination_yields_all_pages_witness :
    (get_orders_rpi
        [List.replicate 100 (1 : ℕ), List.replicate 100 2, List.replicate 100 3,
         List.replicate 100 4, List.replicate 37 5] id).length = 437
    ∧ (get_orders_utils
        [List.replicate 100 (1 : ℕ), List.replicate 100 2, List.replicate 100 3,
         List.replicate 100 4, List.replicate 37 5] id).length = 200 :=
  pagination_yields_all_pages.2
    [List.replicate 100 1, List.replicate 100 2, List.replicate 100 3,
     List.replicate 100 4, List.replicate 37 5] id
    (fun l => List.Perm.refl l) (by decide)

/-- A store API whose every request fails: convenient for exercising paths
that never reach the network. -/
def downStoreApi : StoreApi :=
  { products := fun _ => none
    variations := fun _ => Except.error "connection refused"
    variationOf := fun _ _ => Except.error "connection refused"
    parentOf := fun _ => Except.error "connection refused" }

/-- C3 counterexample: the claimed 5-minute TTL invariant does not hold for
the second stock-cache implementation (`get_stock_quantity` of
`src/utils/woocommerce_client.py`, whose `cache_timeout` is 3600 s): a
value cached at time 0 is still served, without an API fetch, by a read at
time 301 — an age of 301 s ≥ 300 s. -/
theorem stock_cache_ttl_counterexample :
    (get_stock_quantity (fun _ => Except.ok { stock_field := some (some 99) })
        (fun p => if p = 1 then some { ts := 0, value := some 7 } else none)
        301 1).result = some 7
    ∧ (get_stock_quantity (fun _ => Except.ok { stock_field := some (some 99) })
        (fun p => if p = 1 then some { ts := 0, value := some 7 } else none)
        301 1).fetched = false
    ∧ ¬(301 - 0 < 300) := by
  refine ⟨rfl, rfl, by omega⟩

/-- C3 (amended): the raspberry-pi batch stock cache honors the 5-minute
TTL — a quantity cached at `t0` is served unchanged at `t0 + 299` with no
API request, and a query at `t0 + 301` goes back to the API — while the
`src/utils` `get_stock_quantity` serves its cached value for any age below
its 3600-second timeout. -/
theorem stock_cache_ttl :
    (∀ (api : StoreApi) (cache : ℕ → Option ℤ) (t0 pid : ℕ) (v : ℤ),
      cache pid = some v →
      (get_stock_quantities_batch api
          { stock_cache := cache, cache_timestamp := some t0 }
          (t0 + 299) [pid] false).result = [(pid, v)]
        ∧ (get_stock_quantities_batch api
            { stock_cache := cache, cache_timestamp := some t0 }
            (t0 + 299) [pid] false).api_chunks = []
        ∧ (get_stock_quantities_batch api
            { stock_cache := cache, cache_timestamp := some t0 }
            (t0 + 301) [pid] false).api_chunks = [[pid]])
    ∧ (∀ (api : ℕ → Except String UtilsProduct)
        (cache : ℕ → Option UtilsCacheEntry) (now pid : ℕ)
        (e : UtilsCacheEntry),
      cache pid = some e → now - e.ts < 3600 →
      (get_stock_quantity api cache now pid).result = e.value
        ∧ (get_stock_quantity api cache now pid).fetched = false) := by
  constructor
  · intro api cache t0 pid v hv
    have h299 : (t0 + 299) - t0 = 299 := by omega
    have h301 : (t0 + 301) - t0 = 301 := by omega
    refine ⟨?_, ?_, ?_⟩
    · simp [get_stock_quantities_batch, h299, hv]
    · simp [get_stock_quantities_batch, h299]
    · simp only [get_stock_quantities_batch, h301, chunks_of_100]
      norm_num
      rfl
  · intro api cache now pid e he hage
    constructor <;> simp [get_stock_quantity, he, hage]

/-- C3 witness: the amended theorem at a concrete cache holding product 1
with quantity 5 fetched at `t0 = 1000` (raspberry-pi batch cache) and a
concrete `src/utils` cache entry of age 3599 s. -/
theorem stock_cache_ttl_witness :
    ((get_stock_quantities_batch downStoreApi
        { stock_cache := fun p => if p = 1 then some 5 else none
          cache_timestamp := some 1000 } 1299 [1] false).result = [(1, 5)]
      ∧ (get_stock_quantities_batch downStoreApi
          { stock_cache := fun p => if p = 1 then some 5 else none
            cache_timestamp := some 1000 } 1299 [1] false).api_chunks = []
      ∧ (get_stock_quantities_batch downStoreApi
          { stock_cache := fun p => if p = 1 then some 5 else none
            cache_timestamp := some 1000 } 1301 [1] false).api_chunks = [[1]])
    ∧ ((get_stock_quantity (fun _ => Except.error "connection refused")
          (fun p => if p = 1 then some { ts := 0, value := some 7 } else none)
          3599 1).result = some 7
      ∧ (get_stock_quantity (fun _ => Except.error "connection refused")
          (fun p => if p = 1 then some { ts := 0, value := some 7 } else none)
          3599 1).fetched = false) :=
  ⟨stock_cache_ttl.1 downStoreApi (fun p => if p = 1 then some 5 else none)
      1000 1 5 rfl,
   stock_cache_ttl.2 (fun _ => Except.error "connection refused")
      (fun p => if p = 1 then some { ts := 0, value := some 7 } else none)
      3599 1 { ts := 0, value := some 7 } rfl (by omega)⟩

/-- C4 counterexample: with a cache that is fresh as a whole (timestamp 0,
read at time 100) but holds an entry only for product 1, a batch query for
product 2 — which was never fetched — is answered with the default
quantity 0 and no API request at all. -/
theorem unfetched_id_defaulted_counterexample :
    ((fun p => if p = 1 then some (5 : ℤ) else none) 2 = none)
    ∧ (get_stock_quantities_batch downStoreApi
        { stock_cache := fun p => if p = 1 then some 5 else none
          cache_timestamp := some 0 } 100 [2] false).result = [(2, 0)]
    ∧ (get_stock_quantities_batch downStoreApi
        { stock_cache := fun p => if p = 1 then some 5 else none
          cache_timestamp := some 0 } 100 [2] false).api_chunks = [] := by
  refine ⟨rfl, rfl, rfl⟩

/-- C4 (amended): with `force_refresh` false the cache is consulted first,
but freshness is a single whole-cache timestamp: while it is fresh every
requested ID is answered from the cache with default 0 — even an ID that
was never fetched — and no API request is made; only when the timestamp is
absent or expired are the requested IDs fetched, chunked at most 100 per
request and covering every requested ID. -/
theorem batch_cache_lookup :
    ∀ (api : StoreApi) (st : CacheState) (now : ℕ) (ids : List ℕ),
      ((∃ ts, st.cache_timestamp = some ts ∧ now - ts < 300) →
        (get_stock_quantities_batch api st now ids false).result
            = ids.map (fun pid => (pid, (st.stock_cache pid).getD 0))
          ∧ (get_stock_quantities_batch api st now ids false).api_chunks = [])
      ∧ ((∀ ts, st.cache_timestamp = some ts → ¬(now - ts < 300)) →
        (get_stock_quantities_batch api st now ids false).api_chunks
            = chunks_of_100 ids
          ∧ (chunks_of_100 ids).flatten = ids
          ∧ ∀ c ∈ chunks_of_100 ids, c.length ≤ 100) := by
  intro api st now ids
  constructor
  · rintro ⟨ts, hts, hfresh⟩
    constructor <;> simp [get_stock_quantities_batch, hts, hfresh]
  · intro hstale
    refine ⟨?_, chunks_of_100_flatten ids, chunks_of_100_le ids⟩
    match hts : st.cache_timestamp with
    | none => simp [get_stock_quantities_batch, hts]
    | some ts => simp [get_stock_quantities_batch, hts, hstale ts hts]

/-- C4 witness: the amended theorem at a concrete fresh cache (entry only
for product 1, IDs 1 and 2 requested) and at a concrete expired cache. -/
theorem batch_cache_lookup_witness :
    ((get_stock_quantities_batch downStoreApi
        { stock_cache := fun p => if p = 1 then some 5 else none
          cache_timestamp := some 0 } 100 [1, 2] false).result = [(1, 5), (2, 0)]
      ∧ (get_stock_quantities_batch downStoreApi
          { stock_cache := fun p => if p = 1 then some 5 else none
            cache_timestamp := some 0 } 100 [1, 2] false).api_chunks = [])
    ∧ (get_stock_quantities_batch downStoreApi
        { stock_cache := fun p => if p = 1 then some 5 else none
          cache_timestamp := some 0 } 400 [1, 2] false).api_chunks
        = [[1, 2]] := by
  constructor
  · have h := (batch_cache_lookup downStoreApi
      { stock_cache := fun p => if p = 1 then some 5 else none
        cache_timestamp := some 0 } 100 [1, 2]).1 ⟨0, rfl, by omega⟩
    exact ⟨h.1.trans (by decide), h.2⟩
  · have h := (batch_cache_lookup downStoreApi
      { stock_cache := fun p => if p = 1 then some 5 else none
        cache_timestamp := some 0 } 400 [1, 2]).2
      (by rintro ts ⟨rfl⟩; omega)
    exact h.1.trans (by decide)

/-- A small concrete store: product 1 is a variable product whose
variations have stocks (5, null, 3); product 2 is a variation with a null
own stock whose parent (7) has stock 12. -/
def sampleStockApi : StoreApi :=
  { products := fun i =>
      if i = 1 then
        some { id := 1, stock_quantity := none, ptype := "variable", parent_id := 0 }
      else if i = 2 then
        some { id := 2, stock_quantity := none, ptype := "variation", parent_id := 7 }
      else none
    variations := fun i =>
      if i = 1 then
        Except.ok [{ stock_quantity := some 5 }, { stock_quantity := none },
                   { stock_quantity := some 3 }]
      else Except.error "HTTP 500"
    variationOf := fun parent i =>
      if parent = 7 ∧ i = 2 then Except.ok (some { stock_quantity := none })
      else Except.error "HTTP 500"
    parentOf := fun parent =>
      if parent = 7 then Except.ok { stock_quantity := some 12 }
      else Except.error "HTTP 500" }

/-- C6: a product without a direct `stock_quantity` and of type
`"variable"` resolves to the sum of its variations' stock quantities, null
counting as 0 (an empty variation list yields 0, the empty sum); and the
batch result binds each responded product id to its resolved quantity. -/
theorem variable_product_stock_sums_variations :
    (∀ (api : StoreApi) (p : Product) (vs : List Variation),
      p.stock_quantity = none → p.ptype = "variable" →
      api.variations p.id = Except.ok vs →
      resolve_product api p = (vs.map (fun v => v.stock_quantity.getD 0)).sum)
    ∧ (∀ (api : StoreApi) (ids : List ℕ) (pid : ℕ) (p : Product),
      (∀ i q, api.products i = some q → q.id = i) →
      api.products pid = some p → pid ∈ ids →
      (fetch_product_batch api ids).lookup pid
        = some (resolve_product api p)) := by
  constructor
  · intro api p vs h1 h2 h3
    rcases vs with _ | ⟨v, vs⟩ <;>
      simp [resolve_product, h1, h2, fetch_variable_product_stock, h3]
  · intro api ids pid p hwf hp hmem
    induction ids with
    | nil => simp at hmem
    | cons i t ih =>
      cases hq : api.products i with
      | none =>
        have hne : pid ≠ i := by
          intro h
          subst h
          rw [hp] at hq
          cases hq
        have hmem' : pid ∈ t := by
          rcases List.mem_cons.1 hmem with h | h
          · exact absurd h hne
          · exact h
        simpa [fetch_product_batch, List.filterMap_cons, hq]
          using ih hmem'
      | some q =>
        have hqid : q.id = i := hwf i q hq
        by_cases hpi : pid = i
        · subst hpi
          have hqp : q = p := by
            rw [hp] at hq
            exact (Option.some.inj hq).symm
          subst hqp
          simp [fetch_product_batch, List.filterMap_cons, hq, List.lookup, hqid]
        · have hmem' : pid ∈ t := by
            rcases List.mem_cons.1 hmem with h | h
            · exact absurd h hpi
            · exact h
          have hkey : (pid == q.id) = false := by
            simp [hqid, beq_eq_false_iff_ne]
            exact hpi
          simpa [fetch_product_batch, List.filterMap_cons, hq, List.lookup, hkey]
            using ih hmem'

/-- C6 witness: the theorem at the concrete variable product 1 with
variation stocks (5, null, 3): it resolves to 8, both directly and through
a batch request. -/
theorem variable_product_stock_sums_variations_witness :
    resolve_product sampleStockApi
        { id := 1, stock_quantity := none, ptype := "variable", parent_id := 0 }
      = 8
    ∧ (fetch_product_batch sampleStockApi [1]).lookup 1
        = some (resolve_product sampleStockApi
            { id := 1, stock_quantity := none, ptype := "variable",
              parent_id := 0 }) := by
  have hwf : ∀ i q, sampleStockApi.products i = some q → q.id = i := by
    intro i q h
    by_cases hi : i = 1
    · subst hi
      simp [sampleStockApi] at h
      rw [← h]
    · by_cases hi2 : i = 2
      · subst hi2
        simp [sampleStockApi, hi] at h
        rw [← h]
      · simp [sampleStockApi, hi, hi2] at h
  constructor
  · have h := variable_product_stock_sums_variations.1 sampleStockApi
      { id := 1, stock_quantity := none, ptype := "variable", parent_id := 0 }
      [{ stock_quantity := some 5 }, { stock_quantity := none },
       { stock_quantity := some 3 }] rfl rfl rfl
    exact h.trans (by decide)
  · exact variable_product_stock_sums_variations.2 sampleStockApi [1] 1
      { id := 1, stock_quantity := none, ptype := "variable", parent_id := 0 }
      hwf rfl (by decide)

/-- C7: a product that is itself a variation (truthy `parent_id`) and has
no direct stock is resolved through `_fetch_variation_product_stock`: the
freshly fetched variation's own stock wins when non-null, otherwise the
parent product's stock (null → 0) is used, and any exception yields 0
instead of propagating. -/
theorem variation_product_stock_parent_fallback :
    ∀ (api : StoreApi) (p : Product),
      p.stock_quantity = none → p.ptype ≠ "variable" → p.parent_id ≠ 0 →
      (resolve_product api p = fetch_variation_product_stock api p)
      ∧ (∀ v s, api.variationOf p.parent_id p.id = Except.ok (some v) →
          v.stock_quantity = some s →
          fetch_variation_product_stock api p = s)
      ∧ (∀ v parent, api.variationOf p.parent_id p.id = Except.ok (some v) →
          v.stock_quantity = none →
          api.parentOf p.parent_id = Except.ok parent →
          fetch_variation_product_stock api p = parent.stock_quantity.getD 0)
      ∧ (∀ msg, api.variationOf p.parent_id p.id = Except.error msg →
          fetch_variation_product_stock api p = 0) := by
  intro api p h1 h2 h3
  refine ⟨?_, ?_, ?_, ?_⟩
  · simp [resolve_product, h1, h2, h3]
  · intro v s hv hs
    simp [fetch_variation_product_stock, hv, hs]
  · intro v parent hv hs hpar
    simp [fetch_variation_product_stock, hv, hs, hpar]
  · intro msg hmsg
    simp [fetch_variation_product_stock, hmsg]

/-- C7 witness: the theorem at the concrete variation product 2 (null own
stock, parent stock 12 ⇒ resolves to 12) and at a variation whose fetch
raises (⇒ 0). -/
theorem variation_product_stock_parent_fallback_witness :
    resolve_product sampleStockApi
        { id := 2, stock_quantity := none, ptype := "variation", parent_id := 7 }
      = 12
    ∧ fetch_variation_product_stock sampleStockApi
        { id := 3, stock_quantity := none, ptype := "variation", parent_id := 9 }
      = 0 := by
  constructor
  · have h := variation_product_stock_parent_fallback sampleStockApi
      { id := 2, stock_quantity := none, ptype := "variation", parent_id := 7 }
      rfl (by decide) (by decide)
    exact h.1.trans
      (h.2.2.1 { stock_quantity := none } { stock_quantity := some 12 }
        rfl rfl rfl)
  · exact (variation_product_stock_parent_fallback sampleStockApi
      { id := 3, stock_quantity := none, ptype := "variation", parent_id := 9 }
      rfl (by decide) (by decide)).2.2.2 "HTTP 500" rfl

/-- C8: with the Google-Analytics path enabled, a provider query that
raises, or that returns `has_data = false`, makes `calculate_cac_metrics`
report `using_ga_data = false` and fall back to
`ad_spend = order_count × ad_cost_per_order` (the orders counted being the
rows of `customers_df`); when the provider query returns a successful
result its `campaign_data` — which carries the provider's error message
for the no-data case — is passed through to the caller, and
`has_data = true` makes the provider's `total_spend` the reported spend
with `using_ga_data = true`. -/
theorem cac_ad_spend_fallback :
    ∀ (df : List OrderRow) (cost : ℚ)
      (ga : Except String (AdSpendData × CampaignData)),
      customer_rows df ≠ [] →
      ((∀ msg, ga = Except.error msg →
          (calculate_cac_metrics df cost true ga).using_ga_data = false
          ∧ (calculate_cac_metrics df cost true ga).total_ad_spend
              = ((customer_rows df).length : ℚ) * cost)
        ∧ (∀ a c, ga = Except.ok (a, c) → a.has_data = false →
          (calculate_cac_metrics df cost true ga).using_ga_data = false
          ∧ (calculate_cac_metrics df cost true ga).total_ad_spend
              = ((customer_rows df).length : ℚ) * cost
          ∧ (calculate_cac_metrics df cost true ga).campaign_data = c)
        ∧ (∀ a c, ga = Except.ok (a, c) → a.has_data = true →
          (calculate_cac_metrics df cost true ga).using_ga_data = true
          ∧ (calculate_cac_metrics df cost true ga).total_ad_spend
              = a.total_spend
          ∧ (calculate_cac_metrics df cost true ga).campaign_data = c)) := by
  intro df cost ga hcust
  have hdf : df ≠ [] := fun h => hcust (by simp [customer_rows, h])
  refine ⟨?_, ?_, ?_⟩
  · rintro msg rfl
    constructor <;> simp [calculate_cac_metrics, hdf, hcust]
  · rintro a c rfl hnd
    refine ⟨?_, ?_, ?_⟩ <;> simp [calculate_cac_metrics, hdf, hcust, hnd]
  · rintro a c rfl hd
    refine ⟨?_, ?_, ?_⟩ <;> simp [calculate_cac_metrics, hdf, hcust, hd]

/-- C8 witness: the theorem at a concrete one-order DataFrame, for a
provider that raises (fallback spend `1 × 30 = 30`) and for one that
returns `has_data = true` with `total_spend = 250`. -/
theorem cac_ad_spend_fallback_witness :
    ((calculate_cac_metrics
        [{ date := 0, order_id := 1, status := "completed", total := 100
           subtotal := 80, shipping_base := 0, shipping_total := 0
           shipping_tax := 0, tax_total := 20
           billing := some { email := "kunde@example.no" } }] 30 true
        (Except.error "GA quota exceeded")).using_ga_data = false
      ∧ (calculate_cac_metrics
          [{ date := 0, order_id := 1, status := "completed", total := 100
             subtotal := 80, shipping_base := 0, shipping_total := 0
             shipping_tax := 0, tax_total := 20
             billing := some { email := "kunde@example.no" } }] 30 true
          (Except.error "GA quota exceeded")).total_ad_spend = 30)
    ∧ ((calculate_cac_metrics
          [{ date := 0, order_id := 1, status := "completed", total := 100
             subtotal := 80, shipping_base := 0, shipping_total := 0
             shipping_tax := 0, tax_total := 20
             billing := some { email := "kunde@example.no" } }] 30 true
          (Except.ok
            ({ total_spend := 250, has_data := true, error_message := none },
             { error_message := none }))).using_ga_data = true
      ∧ (calculate_cac_metrics
          [{ date := 0, order_id := 1, status := "completed", total := 100
             subtotal := 80, shipping_base := 0, shipping_total := 0
             shipping_tax := 0, tax_total := 20
             billing := some { email := "kunde@example.no" } }] 30 true
          (Except.ok
            ({ total_spend := 250, has_data := true, error_message := none },
             { error_message := none }))).total_ad_spend = 250) := by
  constructor
  · have h := (cac_ad_spend_fallback
      [{ date := 0, order_id := 1, status := "completed", total := 100
         subtotal := 80, shipping_base := 0, shipping_total := 0
         shipping_tax := 0, tax_total := 20
         billing := some { email := "kunde@example.no" } }] 30
      (Except.error "GA quota exceeded") (by decide)).1 "GA quota exceeded" rfl
    exact ⟨h.1, h.2.trans (by simp [customer_rows])⟩
  · have h := (cac_ad_spend_fallback
      [{ date := 0, order_id := 1, status := "completed", total := 100
         subtotal := 80, shipping_base := 0, shipping_total := 0
         shipping_tax := 0, tax_total := 20
         billing := some { email := "kunde@example.no" } }] 30
      (Except.ok
        ({ total_spend := 250, has_data := true, error_message := none },
         { error_message := none })) (by decide)).2.2
      { total_spend := 250, has_data := true, error_message := none }
      { error_message := none } rfl rfl
    exact ⟨h.1, h.2.1⟩

/-- C10: CAC segmentation keys orders on the raw billing email, the empty
string included: adding an order with no billing dict changes nothing in
the result (it is excluded even from the revenue total), and when at least
two orders have a missing/empty billing email they all collapse into a
single `""` customer, counted as exactly one repeat customer and never as
a new customer. -/
theorem cac_empty_email_grouping :
    ∀ (df : List OrderRow) (cost : ℚ) (use_ga : Bool)
      (ga : Except String (AdSpendData × CampaignData)),
      (∀ o : OrderRow, o.billing = none →
        calculate_cac_metrics (df ++ [o]) cost use_ga ga
          = calculate_cac_metrics df cost use_ga ga)
      ∧ (2 ≤ ((customer_rows df).map (fun c => c.email)).count "" →
        (calculate_cac_metrics df cost use_ga ga).new_customers_count
            = ((((customer_rows df).map (fun c => c.email)).dedup).filter
                (fun e => e ≠ ""
                  ∧ ((customer_rows df).map (fun c => c.email)).count e
                      = 1)).length
          ∧ (calculate_cac_metrics df cost use_ga ga).repeat_customers_count
            = 1 + ((((customer_rows df).map (fun c => c.email)).dedup).filter
                (fun e => e ≠ ""
                  ∧ 1 < ((customer_rows df).map
                      (fun c => c.email)).count e)).length) := by
  intro df cost use_ga ga
  constructor
  · intro o hb
    have hcr : customer_rows (df ++ [o]) = customer_rows df := by
      simp [customer_rows, List.filterMap_append, hb]
    by_cases hdf : df = []
    · subst hdf
      simp [calculate_cac_metrics, customer_rows, hb]
    · simp [calculate_cac_metrics, hcr, hdf]
  · intro h2
    have hcust : customer_rows df ≠ [] := by
      intro h
      rw [h] at h2
      simp at h2
    have hdf : df ≠ [] := fun h => hcust (by simp [customer_rows, h])
    constructor
    · have hproj : (calculate_cac_metrics df cost use_ga ga).new_customers_count
          = ((((customer_rows df).map (fun c => c.email)).dedup).filter
              (fun e =>
                ((customer_rows df).map (fun c => c.email)).count e = 1)).length := by
        simp [calculate_cac_metrics, hdf, hcust]
      rw [hproj]
      congr 1
      apply List.filter_congr
      intro x hx
      by_cases hxe : x = ""
      · subst hxe
        have hc : ¬(((customer_rows df).map (fun c => c.email)).count "" = 1) := by
          omega
        simp [hc]
      · simp [hxe]
    · have hproj : (calculate_cac_metrics df cost use_ga ga).repeat_customers_count
          = ((((customer_rows df).map (fun c => c.email)).dedup).filter
              (fun e =>
                1 < ((customer_rows df).map (fun c => c.email)).count e)).length := by
        simp [calculate_cac_metrics, hdf, hcust]
      rw [hproj]
      have hmem : "" ∈ ((customer_rows df).map (fun c => c.email)).dedup :=
        List.mem_dedup.2 (List.count_pos_iff.1 (by omega))
      have hmemf : "" ∈ (((customer_rows df).map (fun c => c.email)).dedup).filter
          (fun e => 1 < ((customer_rows df).map (fun c => c.email)).count e) :=
        List.mem_filter.2 ⟨hmem, by simpa using h2⟩
      have hperm := List.perm_cons_erase hmemf
      rw [hperm.length_eq, List.length_cons]
      have hnd : ((((customer_rows df).map (fun c => c.email)).dedup).filter
          (fun e =>
            1 < ((customer_rows df).map (fun c => c.email)).count e)).Nodup :=
        List.Nodup.filter _ (List.nodup_dedup _)
      rw [hnd.erase_eq_filter "", List.filter_filter]
      rw [Nat.add_comm]
      congr 2
      apply List.filter_congr
      intro x hx
      by_cases hxe : x = ""
      · subst hxe
        simp
      · simp [hxe]

/-- C10 witness: the theorem at a concrete DataFrame with two empty-email
orders and one named customer — the empty emails form one repeat customer
and no new customer besides the named one — and at an appended
billing-less order, which leaves the result untouched. -/
theorem cac_empty_email_grouping_witness :
    (calculate_cac_metrics
        ([{ date := 0, order_id := 1, status := "completed", total := 10
            subtotal := 8, shipping_base := 0, shipping_total := 0
            shipping_tax := 0, tax_total := 2, billing := some { email := "" } },
          { date := 1, order_id := 2, status := "completed", total := 20
            subtotal := 16, shipping_base := 0, shipping_total := 0
            shipping_tax := 0, tax_total := 4, billing := some { email := "" } },
          { date := 2, order_id := 3, status := "completed", total := 30
            subtotal := 24, shipping_base := 0, shipping_total := 0
            shipping_tax := 0, tax_total := 6
            billing := some { email := "kunde@example.no" } }]
          ++ [{ date := 3, order_id := 4, status := "completed", total := 99
                subtotal := 90, shipping_base := 0, shipping_total := 0
                shipping_tax := 0, tax_total := 9, billing := none }]) 30 false
        (Except.error "not configured")
      = calculate_cac_metrics
          [{ date := 0, order_id := 1, status := "completed", total := 10
             subtotal := 8, shipping_base := 0, shipping_total := 0
             shipping_tax := 0, tax_total := 2, billing := some { email := "" } },
           { date := 1, order_id := 2, status := "completed", total := 20
             subtotal := 16, shipping_base := 0, shipping_total := 0
             shipping_tax := 0, tax_total := 4, billing := some { email := "" } },
           { date := 2, order_id := 3, status := "completed", total := 30
             subtotal := 24, shipping_base := 0, shipping_total := 0
             shipping_tax := 0, tax_total := 6
             billing := some { email := "kunde@example.no" } }] 30 false
          (Except.error "not configured"))
    ∧ (calculate_cac_metrics
        [{ date := 0, order_id := 1, status := "completed", total := 10
           subtotal := 8, shipping_base := 0, shipping_total := 0
           shipping_tax := 0, tax_total := 2, billing := some { email := "" } },
         { date := 1, order_id := 2, status := "completed", total := 20
           subtotal := 16, shipping_base := 0, shipping_total := 0
           shipping_tax := 0, tax_total := 4, billing := some { email := "" } },
         { date := 2, order_id := 3, status := "completed", total := 30
           subtotal := 24, shipping_base := 0, shipping_total := 0
           shipping_tax := 0, tax_total := 6
           billing := some { email := "kunde@example.no" } }] 30 false
        (Except.error "not configured")).new_customers_count = 1
    ∧ (calculate_cac_metrics
        [{ date := 0, order_id := 1, status := "completed", total := 10
           subtotal := 8, shipping_base := 0, shipping_total := 0
           shipping_tax := 0, tax_total := 2, billing := some { email := "" } },
         { date := 1, order_id := 2, status := "completed", total := 20
           subtotal := 16, shipping_base := 0, shipping_total := 0
           shipping_tax := 0, tax_total := 4, billing := some { email := "" } },
         { date := 2, order_id := 3, status := "completed", total := 30
           subtotal := 24, shipping_base := 0, shipping_total := 0
           shipping_tax := 0, tax_total := 6
           billing := some { email := "kunde@example.no" } }] 30 false
        (Except.error "not configured")).repeat_customers_count = 1 := by
  have h := cac_empty_email_grouping
    [{ date := 0, order_id := 1, status := "completed", total := 10
       subtotal := 8, shipping_base := 0, shipping_total := 0
       shipping_tax := 0, tax_total := 2, billing := some { email := "" } },
     { date := 1, order_id := 2, status := "completed", total := 20
       subtotal := 16, shipping_base := 0, shipping_total := 0
       shipping_tax := 0, tax_total := 4, billing := some { email := "" } },
     { date := 2, order_id := 3, status := "completed", total := 30
       subtotal := 24, shipping_base := 0, shipping_total := 0
       shipping_tax := 0, tax_total := 6
       billing := some { email := "kunde@example.no" } }] 30 false
    (Except.error "not configured")
  refine ⟨h.1 _ rfl, ?_, ?_⟩
  · have hc := (h.2 (by decide)).1
    exact hc.trans (by decide)
  · have hc := (h.2 (by decide)).2
    exact hc.trans (by decide)

end WooAnalytics
